import Mathlib

set_option maxRecDepth 100000

/-!
Shallow embedding of the Excel Mock Interviewer (`app.py`) and verification of
the frozen claims about its specification.

Modelling conventions:
- Python strings are Lean `String`s.  The Python string primitives are
  embedded as explicit character-list computations (`lowerString` for
  `s.lower()`, `pyStrip` for `s.strip()`, `wordCount` for `len(s.split())`,
  an infix check for `needle in s`), semantically identical to the library
  versions but fully evaluable by the kernel.
- Python numbers: the integer sub-scores are `Nat`; scores that the code
  stores as floats are modelled as `ℚ` (the only float operations the
  scoring paths perform are additions of decimal literals, division, min/max
  and `round(x, 1)`, all exact on the rationals involved; `round` is Python's
  banker's rounding, modelled by `roundHalfEven`).
- `try/except` is modelled by parameterising the guarded body as an
  `Except String` computation: the actual (total) body is injected with
  `Except.ok`, while theorems about the error paths quantify over arbitrary
  possibly-failing bodies.
- `datetime` timestamps are dropped from messages: the spec itself states
  the driver is deterministic aside from timestamps, and no control flow
  reads them.  The `evaluation` field of messages is dropped as well: no code
  path ever sets or reads it.
-/

/-- Boolean test that the character list `n` occurs as a contiguous infix of
`h`; used to model Python's `needle in haystack` on strings. -/
def infixBool (n : List Char) : List Char → Bool
  | [] => n.isEmpty
  | c :: t => n.isPrefixOf (c :: t) || infixBool n t

/-- Python `needle in haystack` for strings. -/
def containsSub (needle hay : String) : Bool :=
  infixBool needle.toList hay.toList

/-- Python `any(term in hay for term in terms)`. -/
def anyTerm (terms : List String) (hay : String) : Bool :=
  terms.any (fun t => containsSub t hay)

/-- Python `sum(1 for term in terms if term in hay)`. -/
def countTerms (terms : List String) (hay : String) : Nat :=
  (terms.filter (fun t => containsSub t hay)).length

/-- Python `s.lower()`: lower-case every character. -/
def lowerString (s : String) : String :=
  String.mk (s.toList.map Char.toLower)

/-- Python `s.strip()`: drop leading and trailing whitespace. -/
def pyStrip (s : String) : String :=
  String.mk (((s.toList.dropWhile Char.isWhitespace).reverse.dropWhile
    Char.isWhitespace).reverse)

/-- Helper for `wordCount`: count maximal whitespace-free runs, tracking
whether the previous character was inside a word. -/
def wordCountAux : List Char → Bool → Nat
  | [], _ => 0
  | c :: t, inWord =>
    if c.isWhitespace then wordCountAux t false
    else (if inWord then 0 else 1) + wordCountAux t true

/-- Python `len(s.split())`: number of maximal whitespace-free words. -/
def wordCount (s : String) : Nat :=
  wordCountAux s.toList false

/-- Python `s.count('.')`. -/
def periodCount (s : String) : Nat :=
  (s.toList.filter (fun c => c = '.')).length

/-- Round a rational to the nearest integer, ties to the even integer;
this is the rounding Python's builtin `round` performs. -/
def roundHalfEven (x : ℚ) : ℤ :=
  if x - ⌊x⌋ < 1/2 then ⌊x⌋
  else if 1/2 < x - ⌊x⌋ then ⌊x⌋ + 1
  else if ⌊x⌋ % 2 = 0 then ⌊x⌋ else ⌊x⌋ + 1

/-- Python `round(x, 1)`: round to one decimal place, ties to even. -/
def roundTenths (x : ℚ) : ℚ :=
  (roundHalfEven (10 * x) : ℚ) / 10

/-- The `InterviewPhase` enumeration of `app.py` (all seven members,
including the `FEEDBACK` member that no reachable state ever uses). -/
inductive InterviewPhase where
  | greeting
  | warmup
  | core_skills
  | scenario_based
  | troubleshooting
  | wrapup
  | feedback
deriving DecidableEq

/-- The `.value` string of each `InterviewPhase` member. -/
def phaseValue : InterviewPhase → String
  | .greeting => "greeting"
  | .warmup => "warmup"
  | .core_skills => "core_skills"
  | .scenario_based => "scenario_based"
  | .troubleshooting => "troubleshooting"
  | .wrapup => "wrapup"
  | .feedback => "feedback"

/-- Position of each phase in the fixed interview order
greeting < warmup < core_skills < scenario_based < troubleshooting < wrapup;
the unreachable `feedback` member is placed after all of them. -/
def phaseIdx : InterviewPhase → Nat
  | .greeting => 0
  | .warmup => 1
  | .core_skills => 2
  | .scenario_based => 3
  | .troubleshooting => 4
  | .wrapup => 5
  | .feedback => 6

/-- A question-bank entry: the `id`, `question` and `type` keys of the
question dicts in `app.py` (the `section` key of file-loaded questions is
consumed during routing and not read afterwards). -/
structure Question where
  id : String
  question : String
  qtype : String
deriving DecidableEq

/-- The question bank: one ordered list per non-greeting question phase,
mirroring the dict returned by `_load_question_bank`. -/
structure QuestionBank where
  warmup : List Question
  core_skills : List Question
  scenario_based : List Question
  troubleshooting : List Question
deriving DecidableEq

/-- `self.questions.get(phase.value, [])`: phases without a key in the
question dict (greeting, wrapup, feedback) yield the empty list. -/
def bankGet (bank : QuestionBank) : InterviewPhase → List Question
  | .warmup => bank.warmup
  | .core_skills => bank.core_skills
  | .scenario_based => bank.scenario_based
  | .troubleshooting => bank.troubleshooting
  | _ => []

/-- `_get_fallback_questions` of `app.py`: the built-in bank used when the
question document is absent or malformed. -/
def get_fallback_questions : QuestionBank :=
  { warmup :=
      [ ⟨"w1", "What\x27s your experience with Excel? How long have you been using it?", "experience"⟩,
        ⟨"w2", "Can you walk me through how you would sum a column of numbers?", "basic"⟩ ],
    core_skills :=
      [ ⟨"c1", "How would you use VLOOKUP to find data in a table?", "lookup"⟩,
        ⟨"c2", "Explain how PivotTables work and when you\x27d use them.", "analysis"⟩ ],
    scenario_based :=
      [ ⟨"s1", "You have a dataset with 10,000 rows of sales data. How would you analyze it to find the top 10 customers?", "analysis"⟩ ],
    troubleshooting :=
      [ ⟨"t1", "A VLOOKUP formula is returning #N/A. What could be causing this?", "debugging"⟩ ] }

/-- Total number of questions in a bank. -/
def bankSize (bank : QuestionBank) : Nat :=
  bank.warmup.length + bank.core_skills.length +
    bank.scenario_based.length + bank.troubleshooting.length

/-- A raw question entry as it appears in the source JSON document:
the routing `section` tag (named `sectionTag` here because `section` is a
Lean keyword) together with the retained fields. -/
structure RawQuestion where
  id : String
  sectionTag : String
  question : String
  qtype : String
deriving DecidableEq

/-- The section-routing loop of `_load_question_bank` (lines 75-93):
questions are distributed into the four phase lists by their `section`
tag; entries with an unrecognised section are dropped. -/
def organizeQuestions (qs : List RawQuestion) : QuestionBank :=
  qs.foldl
    (fun bank q =>
      let entry : Question := ⟨q.id, q.question, q.qtype⟩
      if q.sectionTag = "warmup" then { bank with warmup := bank.warmup ++ [entry] }
      else if q.sectionTag = "core" then { bank with core_skills := bank.core_skills ++ [entry] }
      else if q.sectionTag = "scenario" then { bank with scenario_based := bank.scenario_based ++ [entry] }
      else if q.sectionTag = "troubleshoot" then { bank with troubleshooting := bank.troubleshooting ++ [entry] }
      else bank)
    ⟨[], [], [], []⟩

/-- `_load_question_bank` of `app.py`.  Its input models the outcome of
opening and JSON-parsing `comprehensive_questions.json`: `Except.error`
covers both `FileNotFoundError` and every other parse failure, and the
`ok` payload is the document's `questions` list.  Any failure falls back
to the built-in bank. -/
def load_question_bank : Except String (List RawQuestion) → QuestionBank
  | .error _ => get_fallback_questions
  | .ok qs => organizeQuestions qs

/-- The result dict produced by the evaluators: `score`, `reasoning`,
`strengths`, `areas_for_improvement`, and the `evaluation_type` key that is
present (as `"advanced"`) only in results of the advanced evaluator. -/
structure EvaluationResult where
  score : ℚ
  reasoning : String
  strengths : List String
  areas_for_improvement : List String
  evaluation_type : Option String
deriving DecidableEq

/-- Technical-accuracy sub-score of `_ai_evaluate_response` before the
phase-specific bonus (lines 156-166). -/
def techAccuracyBase (rl : String) : Nat :=
  (if anyTerm ["function", "formula", "cell", "range", "data"] rl then 3 else 0) +
  (if anyTerm ["=", "sum", "count", "average", "vlookup", "index", "match"] rl then 4 else 0) +
  (if containsSub "pivot" rl || containsSub "table" rl then 2 else 0)

/-- Phase-specific technical-accuracy bonus of `_ai_evaluate_response`
(lines 196-208). -/
def phaseBonus (rl : String) : InterviewPhase → Nat
  | .warmup => if anyTerm ["experience", "years", "used", "familiar"] rl then 2 else 0
  | .core_skills => if anyTerm ["vlookup", "index", "match", "sumif", "countif"] rl then 3 else 0
  | .scenario_based => if anyTerm ["analyze", "pivot", "filter", "sort"] rl then 3 else 0
  | .troubleshooting => if anyTerm ["error", "fix", "debug", "check"] rl then 3 else 0
  | _ => 0

/-- Full technical-accuracy sub-score: base checks plus the phase bonus.
`rl` is the lower-cased response. -/
def technicalAccuracy (rl : String) (phase : InterviewPhase) : Nat :=
  techAccuracyBase rl + phaseBonus rl phase

/-- Completeness sub-score of `_ai_evaluate_response` (lines 169-177):
word count above 50 scores 4, above 20 scores 2, otherwise 1. -/
def completenessScore (response : String) : Nat :=
  if wordCount response > 50 then 4
  else if wordCount response > 20 then 2
  else 1

/-- Clarity sub-score of `_ai_evaluate_response` (lines 180-186): periods
are counted on the raw response, the example phrases on the lower-cased
copy. -/
def clarityScore (response rl : String) : Nat :=
  (if periodCount response > 1 then 2 else 0) +
  (if anyTerm ["example", "for instance", "such as"] rl then 2 else 0)

/-- The Excel domain-term list of the advanced evaluator (line 189). -/
def excelTermsAdvanced : List String :=
  ["excel", "spreadsheet", "worksheet", "workbook", "formula", "function"]

/-- Excel-knowledge sub-score of `_ai_evaluate_response` (lines 189-191):
number of domain terms present, capped at 5. -/
def excelKnowledge (rl : String) : Nat :=
  min 5 (countTerms excelTermsAdvanced rl)

/-- The `try` body of `_ai_evaluate_response` (lines 141-231): the advanced
keyword-based evaluation.  Strengths, improvement notes and the reasoning
line are accumulated in the source's order. -/
def aiEvalBody (_question : Question) (response : String) (phase : InterviewPhase) :
    EvaluationResult :=
  let rl := lowerString response
  let strengths1 :=
    if anyTerm ["function", "formula", "cell", "range", "data"] rl then
      ["Uses Excel terminology correctly"] else []
  let strengths2 :=
    if anyTerm ["=", "sum", "count", "average", "vlookup", "index", "match"] rl then
      strengths1 ++ ["Demonstrates knowledge of Excel functions"] else strengths1
  let strengths3 :=
    if containsSub "pivot" rl || containsSub "table" rl then
      strengths2 ++ ["Shows understanding of data analysis tools"] else strengths2
  let strengths4 :=
    if wordCount response > 50 then strengths3 ++ ["Provides comprehensive answer"]
    else strengths3
  let improvements1 :=
    if wordCount response > 50 then []
    else if wordCount response > 20 then []
    else ["Could provide more detail"]
  let strengths5 :=
    if periodCount response > 1 then strengths4 ++ ["Well-structured response"] else strengths4
  let strengths6 :=
    if anyTerm ["example", "for instance", "such as"] rl then
      strengths5 ++ ["Provides examples"] else strengths5
  let strengths7 :=
    if excelKnowledge rl > 2 then strengths6 ++ ["Demonstrates Excel expertise"] else strengths6
  let total : Nat :=
    technicalAccuracy rl phase + completenessScore response +
      clarityScore response rl + excelKnowledge rl
  let total_score : ℚ := (total : ℚ) / 4
  let final_score : ℚ := min 10 (max 1 total_score)
  let reasoningLine :=
    if final_score ≥ 8 then "Excellent response demonstrating strong Excel knowledge"
    else if final_score ≥ 6 then "Good response with solid Excel understanding"
    else if final_score ≥ 4 then "Basic response showing some Excel knowledge"
    else "Response needs improvement in technical detail"
  let improvements2 :=
    if final_score ≥ 4 then improvements1
    else improvements1 ++ ["Focus on Excel-specific terminology and examples"]
  { score := roundTenths final_score,
    reasoning := reasoningLine,
    strengths := if strengths7 ≠ [] then strengths7 else ["Attempted to answer"],
    areas_for_improvement :=
      if improvements2 ≠ [] then improvements2 else ["Provide more technical detail"],
    evaluation_type := some "advanced" }

/-- The `try` body of `_rule_based_evaluate_response` (lines 239-329): the
basic keyword-based evaluation keyed on the question text. -/
def ruleEvalBody (question : Question) (response : String) (phase : InterviewPhase) :
    EvaluationResult :=
  let _ := phase
  let rl := lowerString response
  let qt := lowerString question.question
  let stripped := pyStrip response
  let score1 : ℚ :=
    if stripped.length < 10 then 1
    else if stripped.length < 30 then 2
    else if stripped.length > 50 then 3
    else 0
  let reasoning1 :=
    if stripped.length < 10 then ["Very short response"]
    else if stripped.length < 30 then ["Short response"]
    else if stripped.length > 50 then ["Detailed response"]
    else []
  let improvements1 :=
    if stripped.length < 10 then ["Provide more detailed answers"] else []
  let strengths1 :=
    if stripped.length < 10 then []
    else if stripped.length < 30 then []
    else if stripped.length > 50 then ["Provides comprehensive answer"]
    else []
  let qHit : Option (List String × String × String) :=
    if containsSub "sum" qt then
      some (["add", "total", "sum", "plus", "addition", "calculate"],
        "Correctly identifies SUM function purpose",
        "Should mention adding/totaling numbers")
    else if containsSub "count" qt then
      some (["count", "number", "how many", "quantity", "items"],
        "Understands COUNT function purpose",
        "Should mention counting items")
    else if containsSub "vlookup" qt then
      some (["lookup", "find", "search", "match", "reference", "table"],
        "Shows understanding of VLOOKUP concept",
        "Should mention looking up values in tables")
    else if containsSub "pivot" qt then
      some (["pivot", "table", "summarize", "group", "analyze", "data"],
        "Understands PivotTable functionality",
        "Should mention data summarization and analysis")
    else none
  let score2 : ℚ :=
    match qHit with
    | some (terms, _, _) => if anyTerm terms rl then score1 + 3 else score1
    | none => score1
  let strengths2 :=
    match qHit with
    | some (terms, s, _) => if anyTerm terms rl then strengths1 ++ [s] else strengths1
    | none => strengths1
  let improvements2 :=
    match qHit with
    | some (terms, _, i) => if anyTerm terms rl then improvements1 else improvements1 ++ [i]
    | none => improvements1
  let excelTermsBasic :=
    ["excel", "spreadsheet", "worksheet", "workbook", "cell", "range", "formula"]
  let foundExcel := countTerms excelTermsBasic rl
  let score3 : ℚ :=
    if foundExcel > 0 then score2 + min ((foundExcel : ℚ) * (1/2)) 2 else score2
  let strengths3 :=
    if foundExcel > 0 then strengths2 ++ ["Uses appropriate Excel terminology"] else strengths2
  let technicalIndicators := ["function", "formula", "data", "analysis", "business", "report"]
  let foundTechnical := countTerms technicalIndicators rl
  let score4 : ℚ :=
    if foundTechnical > 0 then score3 + min ((foundTechnical : ℚ) * (3/10)) (3/2) else score3
  let strengths4 :=
    if foundTechnical > 0 then strengths3 ++ ["Shows technical understanding"] else strengths3
  let confidenceIndicators :=
    ["i think", "i believe", "i would", "i usually", "in my experience", "typically"]
  let score5 : ℚ :=
    if anyTerm confidenceIndicators rl then score4 + 1/2 else score4
  let strengths5 :=
    if anyTerm confidenceIndicators rl then strengths4 ++ ["Shows confidence in response"]
    else strengths4
  let score6 : ℚ := max 1 (min 10 score5)
  let reasoning2 :=
    if score6 ≥ 8 then reasoning1 ++ ["Excellent technical response with clear understanding"]
    else if score6 ≥ 6 then reasoning1 ++ ["Good response demonstrating solid Excel knowledge"]
    else if score6 ≥ 4 then reasoning1 ++ ["Basic response showing some understanding"]
    else reasoning1 ++ ["Response needs significant improvement in technical detail"]
  { score := roundTenths score6,
    reasoning := String.intercalate ". " reasoning2,
    strengths := if strengths5 ≠ [] then strengths5 else ["Attempted to answer"],
    areas_for_improvement :=
      if improvements2 ≠ [] then improvements2 else ["Provide more technical detail"],
    evaluation_type := none }

/-- The fixed neutral result returned by the final `except` clause of
`_rule_based_evaluate_response` (lines 331-338). -/
def neutralResult : EvaluationResult :=
  { score := 5,
    reasoning := "Basic response evaluation",
    strengths := ["Responded to question"],
    areas_for_improvement := ["Could provide more technical detail"],
    evaluation_type := none }

/-- `_rule_based_evaluate_response` with its `try/except`: the guarded body
is passed as a possibly-failing computation; any error is replaced by the
fixed neutral result. -/
def rule_based_evaluate_response
    (ruleBody : Question → String → InterviewPhase → Except String EvaluationResult)
    (question : Question) (response : String) (phase : InterviewPhase) : EvaluationResult :=
  match ruleBody question response phase with
  | .ok v => v
  | .error _ => neutralResult

/-- `_ai_evaluate_response` with its `try/except`: any error in the advanced
body falls back to the rule-based evaluator (which in turn protects itself
with the neutral result). -/
def ai_evaluate_response
    (aiBody ruleBody : Question → String → InterviewPhase → Except String EvaluationResult)
    (question : Question) (response : String) (phase : InterviewPhase) : EvaluationResult :=
  match aiBody question response phase with
  | .ok v => v
  | .error _ => rule_based_evaluate_response ruleBody question response phase

/-- The scorer as it actually runs: both guarded bodies are the total
computations embedded above, injected with `Except.ok`. -/
def aiEvaluate (question : Question) (response : String) (phase : InterviewPhase) :
    EvaluationResult :=
  ai_evaluate_response
    (fun q r p => .ok (aiEvalBody q r p))
    (fun q r p => .ok (ruleEvalBody q r p))
    question response phase

/-- A transcript entry, mirroring `InterviewMessage` of `app.py` minus the
timestamp and the never-used `evaluation` field (see the header comment). -/
structure InterviewMessage where
  role : String
  content : String
  phase : InterviewPhase
  question_id : Option String
deriving DecidableEq

/-- One entry of `state.evaluation_scores`: the dict appended per answered
question in `process_candidate_response` (lines 554-558). -/
structure EvalScore where
  question_id : String
  score : ℚ
  phase : String
deriving DecidableEq

/-- The mutable session aggregate, mirroring `InterviewState` of `app.py`
minus `start_time` (read only for display) and the unused `metadata`. -/
structure InterviewState where
  candidate_name : String
  current_phase : InterviewPhase
  conversation_history : List InterviewMessage
  current_question : Option Question
  evaluation_scores : List EvalScore
deriving DecidableEq

/-- Python truthiness of `msg.question_id`: a non-`None`, non-empty string. -/
def qidTruthy (m : InterviewMessage) : Bool :=
  match m.question_id with
  | some s => s ≠ ""
  | none => false

/-- `_get_next_question` of `app.py` (lines 340-354): the question at index
`N` of the current phase's list, where `N` counts the interviewer messages
of the current phase that carry a question id. -/
def get_next_question (bank : QuestionBank) (state : InterviewState) : Option Question :=
  let phase_questions := bankGet bank state.current_phase
  if phase_questions.isEmpty then none
  else
    let question_index :=
      (state.conversation_history.filter
        (fun m => m.phase = state.current_phase ∧ m.role = "interviewer" ∧ qidTruthy m)).length
    phase_questions.get? question_index

/-- `_transition_to_next_phase` of `app.py` (lines 407-435): advance to the
fixed successor phase once the count of interviewer messages tagged with
the current phase reaches the length of that phase's (non-empty) question
list; otherwise stay. -/
def transition_to_next_phase (bank : QuestionBank) (state : InterviewState) : InterviewPhase :=
  let questions_in_phase :=
    (state.conversation_history.filter
      (fun m => m.phase = state.current_phase ∧ m.role = "interviewer")).length
  let current_phase_questions := bankGet bank state.current_phase
  if questions_in_phase ≥ current_phase_questions.length ∧ ¬current_phase_questions.isEmpty then
    match state.current_phase with
    | .greeting => .warmup
    | .warmup => .core_skills
    | .core_skills => .scenario_based
    | .scenario_based => .troubleshooting
    | .troubleshooting => .wrapup
    | .wrapup => .wrapup
    | .feedback => .wrapup
  else state.current_phase

/-- The string-valued attributes `__init__` sets on `ExcelInterviewAgent`
(line 65-66): only `model_url` and `evaluation_url` are ever defined. -/
structure AgentAttrs where
  model_url : String
  evaluation_url : String
deriving DecidableEq

/-- The attributes of the one agent the app constructs. -/
def theAgentAttrs : AgentAttrs :=
  { model_url := "https://api-inference.huggingface.co/models/microsoft/DialoGPT-medium",
    evaluation_url := "https://api-inference.huggingface.co/models/facebook/bart-large-mnli" }

/-- Python attribute resolution on the agent for string-valued attributes:
`getattr(self, name)` succeeds only for the attributes `__init__` defines;
any other name (in particular `evaluation_model_url` and `ai_model_url`)
raises `AttributeError`, modelled as `none`. -/
def lookupAttr (a : AgentAttrs) (name : String) : Option String :=
  if name = "model_url" then some a.model_url
  else if name = "evaluation_url" then some a.evaluation_url
  else none

/-- Python `s.replace('_', ' ')` for single characters. -/
def replaceChar (old new : Char) (s : String) : String :=
  String.mk (s.toList.map (fun c => if c = old then new else c))

/-- Python `s.title()`: each alphabetic character is upper-cased when the
previous character is not alphabetic and lower-cased otherwise. -/
def titleCase (s : String) : String :=
  String.mk
    ((s.toList.foldl
      (fun (acc : List Char × Bool) c =>
        if c.isAlpha then
          (acc.1 ++ [if acc.2 then c.toLower else c.toUpper], true)
        else (acc.1 ++ [c], false))
      ([], false)).1)

/-- Python `f"{x:.1f}"` on the (exact, rational-valued) scores appearing in
the reports: one decimal digit, ties rounded to even. -/
def fmt1 (x : ℚ) : String :=
  let n := roundHalfEven (10 * x)
  let m := n.natAbs
  (if n < 0 then "-" else "") ++ toString (m / 10) ++ "." ++ toString (m % 10)

/-- The per-phase grouping loop of `process_candidate_response`
(lines 611-616), as an insertion-ordered association list (Python dicts
preserve insertion order). -/
def groupScores (scores : List EvalScore) : List (String × List ℚ) :=
  scores.foldl
    (fun acc sc =>
      if acc.any (fun p => p.1 = sc.phase) then
        acc.map (fun p => if p.1 = sc.phase then (p.1, p.2 ++ [sc.score]) else p)
      else acc ++ [(sc.phase, [sc.score])])
    []

/-- One bullet of the per-category section of `_generate_fallback_report`
(lines 488-499). -/
def categoryBullet (entry : String × List ℚ) : String :=
  let phase_avg : ℚ := if entry.2 ≠ [] then entry.2.sum / entry.2.length else 0
  let phase_name := titleCase (replaceChar '_' ' ' entry.1)
  "• " ++ phase_name ++ ": " ++ fmt1 phase_avg ++ "/10\n" ++
  (if phase_avg ≥ 8 then "  Excellent performance in " ++ lowerString phase_name ++ "\n"
   else if phase_avg ≥ 6 then "  Good performance in " ++ lowerString phase_name ++ "\n"
   else "  Needs improvement in " ++ lowerString phase_name ++ "\n")

/-- `_generate_fallback_report` of `app.py` (lines 480-537): the fixed
deterministic report template. -/
def generate_fallback_report (avg_score : ℚ) (phase_scores : List (String × List ℚ))
    (total_questions : Nat) : String :=
  let t0 := "**Interview Complete!**\n\n" ++
    "**Overall Score: " ++ fmt1 avg_score ++ "/10**\n\n" ++
    "**Questions Answered: " ++ toString total_questions ++ "**\n\n"
  let t1 :=
    if phase_scores ≠ [] then
      t0 ++ "**Performance by Category:**\n" ++
        (phase_scores.foldl (fun acc e => acc ++ categoryBullet e) "")
    else t0
  let t2 := t1 ++ "\n**Detailed Assessment:**\n" ++
    (if avg_score ≥ 8 then
      "**Excellent Performance!**\n" ++
      "• You demonstrate advanced Excel proficiency\n" ++
      "• Strong technical knowledge and practical application\n" ++
      "• Ready for senior-level Excel roles\n" ++
      "• Consider pursuing Excel certification\n"
    else if avg_score ≥ 6 then
      "**Good Performance**\n" ++
      "• Solid foundation in Excel fundamentals\n" ++
      "• Shows understanding of core functions\n" ++
      "• Focus on advanced features (VLOOKUP, PivotTables, macros)\n" ++
      "• Practice with real-world datasets\n"
    else if avg_score ≥ 4 then
      "**Developing Skills**\n" ++
      "• Basic Excel knowledge demonstrated\n" ++
      "• Focus on fundamental functions (SUM, COUNT, AVERAGE)\n" ++
      "• Practice with Excel tutorials and exercises\n" ++
      "• Consider Excel beginner courses\n"
    else
      "**Needs Focused Learning**\n" ++
      "• Start with Excel basics and fundamentals\n" ++
      "• Practice with simple formulas and functions\n" ++
      "• Take structured Excel training courses\n" ++
      "• Build confidence with hands-on practice\n")
  t2 ++ "\n**Next Steps:**\n" ++
    (if avg_score ≥ 6 then
      "• Practice advanced Excel features\n" ++
      "• Work with complex datasets\n" ++
      "• Learn Power Query and Power Pivot\n"
    else
      "• Complete Excel fundamentals training\n" ++
      "• Practice with sample datasets\n" ++
      "• Focus on basic formulas and functions\n")

/-- The prompt `_generate_ai_final_report` assembles before attempting the
external call (lines 441-467).  It is built and then discarded on the only
reachable path (the attribute access that follows it always fails), so its
text influences no observable behaviour; it is embedded here in abbreviated
form, faithfully including the candidate-message summary loop. -/
def reportPrompt (state : InterviewState) (avg_score : ℚ) : String :=
  let recent := state.conversation_history.drop (state.conversation_history.length - 10)
  let summary := recent.foldl
    (fun acc m =>
      if m.role = "candidate" then acc ++ "Candidate: " ++ String.mk (m.content.toList.take 100) ++ "...\n"
      else acc)
    ""
  "You are Sarah Chen, an Excel expert who just conducted a technical interview. " ++
    "Candidate: " ++ state.candidate_name ++ " Overall Score: " ++ fmt1 avg_score ++ "/10 " ++
    "Questions Answered: " ++ toString state.evaluation_scores.length ++ " " ++ summary

/-- `_generate_ai_final_report` of `app.py` (lines 437-478).  `callModel`
stands for the network response of `_call_ai_model` for a given prompt and
url.  The body reads `self.evaluation_model_url`, an attribute `__init__`
never defines, so the `AttributeError` is caught and the deterministic
fallback report is returned. -/
def generate_ai_final_report (callModel : String → String → String) (agent : AgentAttrs)
    (state : InterviewState) (avg_score : ℚ) (phase_scores : List (String × List ℚ)) : String :=
  match lookupAttr agent "evaluation_model_url" with
  | none => generate_fallback_report avg_score phase_scores state.evaluation_scores.length
  | some url =>
    let ai_report := callModel (reportPrompt state avg_score) url
    if ai_report ≠ "" ∧ (pyStrip ai_report).length > 50 then pyStrip ai_report
    else generate_fallback_report avg_score phase_scores state.evaluation_scores.length

/-- First step of `process_candidate_response` (lines 543-549): append the
candidate's message, tagged with the phase current at call time. -/
def appendCandidate (state : InterviewState) (response : String) : InterviewState :=
  { state with conversation_history :=
      state.conversation_history ++ [⟨"candidate", response, state.current_phase, none⟩] }

/-- Second step of `process_candidate_response` (lines 552-561): if a
question is pending, score the response, record the evaluation and clear
the pending question. -/
def evalStage (state : InterviewState) (response : String) : InterviewState :=
  match state.current_question with
  | some q =>
    let evaluation := aiEvaluate q response state.current_phase
    { state with
        evaluation_scores := state.evaluation_scores ++
          [⟨q.id, evaluation.score, phaseValue state.current_phase⟩],
        current_question := none }
  | none => state

/-- The interviewer message carrying a freshly asked question
(lines 573-580). -/
def questionMessage (phase : InterviewPhase) (q : Question) : InterviewMessage :=
  ⟨"interviewer", q.question, phase, some q.id⟩

/-- Third step of `process_candidate_response` (lines 564-584): outside
wrapup, move greeting to warmup, then ask the next unused question of the
current phase if one exists, recording it as pending. -/
def askStage (bank : QuestionBank) (state : InterviewState) : InterviewState :=
  if state.current_phase = .wrapup then state
  else
    let s1 :=
      if state.current_phase = .greeting then { state with current_phase := .warmup }
      else state
    match get_next_question bank s1 with
    | some q =>
      { s1 with
          current_question := some q,
          conversation_history := s1.conversation_history ++ [questionMessage s1.current_phase q] }
    | none => s1

/-- The state of the session when `process_candidate_response` reaches its
phase-transition check (line 586). -/
def midState (bank : QuestionBank) (state : InterviewState) (response : String) :
    InterviewState :=
  askStage bank (evalStage (appendCandidate state response) response)

/-- Count of interviewer messages tagged with a non-greeting phase
(lines 589-590). -/
def nonGreetingQuestionCount (history : List InterviewMessage) : Nat :=
  (history.filter (fun m => m.role = "interviewer" ∧ m.phase ≠ .greeting)).length

/-- The phase-update part of the transition check (lines 588-602): at 18 or
more non-greeting interviewer messages, force wrapup as soon as no question
is pending; below the floor, defer to `_transition_to_next_phase`.
(The source assigns the transition result only when it differs from the
current phase; assigning an equal value yields the same state, so the
guard is dropped here.) -/
def checkPhase (bank : QuestionBank) (state : InterviewState) : InterviewState :=
  if nonGreetingQuestionCount state.conversation_history ≥ 18 then
    if state.current_question = none then { state with current_phase := .wrapup }
    else state
  else
    { state with current_phase := transition_to_next_phase bank state }

/-- The synthetic final-report message appended on ending a turn in wrapup
(lines 606-627): aggregate the recorded scores and render the final report. -/
def reportMessage (callModel : String → String → String) (state : InterviewState) :
    InterviewMessage :=
  let total_score : ℚ := (state.evaluation_scores.map (fun sc => sc.score)).sum
  let avg_score : ℚ :=
    if state.evaluation_scores ≠ [] then total_score / state.evaluation_scores.length else 0
  let phase_scores := groupScores state.evaluation_scores
  let feedback_text :=
    generate_ai_final_report callModel theAgentAttrs state avg_score phase_scores
  ⟨"interviewer", feedback_text, .wrapup, none⟩

/-- Fourth step of `process_candidate_response` (lines 586-627): outside
greeting, update the phase via the 18-question floor or the per-phase
machine, and append the final report whenever the turn ends in wrapup. -/
def phaseStage (bank : QuestionBank) (callModel : String → String → String)
    (state : InterviewState) : InterviewState :=
  if state.current_phase = .greeting then state
  else
    let s2 := checkPhase bank state
    if s2.current_phase = .wrapup then
      { s2 with conversation_history := s2.conversation_history ++ [reportMessage callModel s2] }
    else s2

/-- `process_candidate_response` of `app.py` (lines 539-629): one full
candidate turn. -/
def process_candidate_response (bank : QuestionBank) (callModel : String → String → String)
    (state : InterviewState) (response : String) : InterviewState :=
  phaseStage bank callModel (midState bank state response)

/-- The greeting text `main` posts when a session starts (line 807). -/
def greetingText (name : String) : String :=
  "Hello " ++ name ++ "! It\x27s great to meet you. I\x27m Sarah, and I\x27ll be conducting " ++
    "your Excel technical interview today. We\x27ll go through about 20 Excel questions " ++
    "covering different skill levels. Are you ready to begin?"

/-- The session as `main` creates it (lines 796-814): phase `GREETING`,
the greeting message appended, then the phase immediately advanced to
`WARMUP` before any turn is processed. -/
def initialState (name : String) : InterviewState :=
  { candidate_name := name,
    current_phase := .warmup,
    conversation_history := [⟨"interviewer", greetingText name, .greeting, none⟩],
    current_question := none,
    evaluation_scores := [] }

/-- Session states reachable through the Streamlit driver: sessions start
via the start form (non-blank name, line 795) and advance one turn per
submitted non-blank response (lines 890-895); the driver never submits a
turn once the session is in wrapup (the input form is hidden, line 874). -/
inductive DriverReachable (bank : QuestionBank) (callModel : String → String → String) :
    InterviewState → Prop where
  | init : ∀ name : String, pyStrip name ≠ "" →
      DriverReachable bank callModel (initialState (pyStrip name))
  | step : ∀ (s : InterviewState) (r : String), DriverReachable bank callModel s →
      s.current_phase ≠ .wrapup → pyStrip r ≠ "" →
      DriverReachable bank callModel (process_candidate_response bank callModel s (pyStrip r))

/-- A bare greeting-phase session, before `main` posts the greeting: the
start state of the phase machine itself. -/
def greetingStart (name : String) : InterviewState :=
  { candidate_name := name,
    current_phase := .greeting,
    conversation_history := [],
    current_question := none,
    evaluation_scores := [] }

/-- Session states reachable from the greeting phase through
`process_candidate_response` alone (no driver-side guards). -/
inductive ReachableFromGreeting (bank : QuestionBank)
    (callModel : String → String → String) : InterviewState → Prop where
  | init : ∀ name : String, ReachableFromGreeting bank callModel (greetingStart name)
  | step : ∀ (s : InterviewState) (r : String), ReachableFromGreeting bank callModel s →
      ReachableFromGreeting bank callModel (process_candidate_response bank callModel s r)

theorem floor_le_roundHalfEven (x : ℚ) : ⌊x⌋ ≤ roundHalfEven x := by
  unfold roundHalfEven
  split_ifs <;> omega

theorem roundHalfEven_le_ceil (x : ℚ) : roundHalfEven x ≤ ⌈x⌉ := by
  unfold roundHalfEven
  have hfc : ⌊x⌋ ≤ ⌈x⌉ := Int.floor_le_ceil x
  split_ifs with h1 h2 h3
  · exact hfc
  · have : (⌊x⌋ : ℚ) < x := by linarith
    have := Int.lt_ceil.mpr this
    omega
  · exact hfc
  · have hge : (1 : ℚ)/2 ≤ x - ⌊x⌋ := le_of_not_lt h1
    have : (⌊x⌋ : ℚ) < x := by linarith
    have := Int.lt_ceil.mpr this
    omega

theorem roundTenths_bounds (y : ℚ) (h1 : 1 ≤ y) (h2 : y ≤ 10) :
    1 ≤ roundTenths y ∧ roundTenths y ≤ 10 := by
  unfold roundTenths
  have hlow : (10 : ℤ) ≤ ⌊10 * y⌋ := Int.le_floor.mpr (by push_cast; linarith)
  have hfl : (10 : ℤ) ≤ roundHalfEven (10 * y) :=
    le_trans hlow (floor_le_roundHalfEven _)
  have hceil : ⌈10 * y⌉ ≤ (100 : ℤ) := Int.ceil_le.mpr (by push_cast; linarith)
  have hhi : roundHalfEven (10 * y) ≤ (100 : ℤ) :=
    le_trans (roundHalfEven_le_ceil _) hceil
  constructor
  · have : (10 : ℚ) ≤ (roundHalfEven (10 * y) : ℚ) := by exact_mod_cast hfl
    linarith
  · have : (roundHalfEven (10 * y) : ℚ) ≤ 100 := by exact_mod_cast hhi
    linarith

/-- C1: for every question, answer and phase, the score returned by the
advanced evaluator lies in the closed range [1, 10], and it equals the sum
of the four sub-scores (technical accuracy, completeness, clarity, Excel
knowledge) divided by 4, clamped to [1, 10] and rounded to one decimal
place. -/
theorem evaluate_score_in_range (q : Question) (r : String) (p : InterviewPhase) :
    1 ≤ (aiEvaluate q r p).score ∧ (aiEvaluate q r p).score ≤ 10 ∧
    (aiEvaluate q r p).score =
      roundTenths (min 10 (max 1
        (((technicalAccuracy (lowerString r) p + completenessScore r +
          clarityScore r (lowerString r) + excelKnowledge (lowerString r) : ℕ) : ℚ) / 4))) := by
  have hval : (aiEvaluate q r p).score =
      roundTenths (min 10 (max 1
        (((technicalAccuracy (lowerString r) p + completenessScore r +
          clarityScore r (lowerString r) + excelKnowledge (lowerString r) : ℕ) : ℚ) / 4))) := rfl
  have h1 : (1 : ℚ) ≤ min 10 (max 1
      (((technicalAccuracy (lowerString r) p + completenessScore r +
        clarityScore r (lowerString r) + excelKnowledge (lowerString r) : ℕ) : ℚ) / 4)) :=
    le_min (by norm_num) (le_max_left _ _)
  have h2 : min 10 (max 1
      (((technicalAccuracy (lowerString r) p + completenessScore r +
        clarityScore r (lowerString r) + excelKnowledge (lowerString r) : ℕ) : ℚ) / 4)) ≤ 10 :=
    min_le_left _ _
  have hb := roundTenths_bounds _ h1 h2
  exact ⟨hval ▸ hb.1, hval ▸ hb.2, hval⟩

/-- A concrete answer with exactly twenty words. -/
def twentyWords : String :=
  "one two three four five six seven eight nine ten eleven twelve thirteen fourteen fifteen sixteen seventeen eighteen nineteen twenty"

/-- C4 counterexample: at a word count of exactly 20 the completeness
sub-score is 1, not the 2 the claim assigns to the range 20 to 50. -/
theorem completeness_at_twenty_words :
    wordCount twentyWords = 20 ∧ completenessScore twentyWords = 1 ∧
    completenessScore twentyWords ≠ 2 := by decide

/-- C4 (amended): the completeness sub-score is 4 for word counts strictly
above 50, 2 for word counts strictly above 20 and at most 50, and 1 for
word counts of at most 20; in the last case the improvement note about
providing more detail is recorded. -/
theorem completeness_thresholds (q : Question) (r : String) (p : InterviewPhase) :
    (wordCount r > 50 → completenessScore r = 4) ∧
    (20 < wordCount r ∧ wordCount r ≤ 50 → completenessScore r = 2) ∧
    (wordCount r ≤ 20 → completenessScore r = 1 ∧
      "Could provide more detail" ∈ (aiEvaluate q r p).areas_for_improvement) := by
  refine ⟨?_, ?_, ?_⟩
  · intro h
    simp [completenessScore, h]
  · rintro ⟨h1, h2⟩
    have h3 : ¬ wordCount r > 50 := by omega
    simp [completenessScore, h3, h1]
  · intro h
    have h1 : ¬ wordCount r > 50 := by omega
    have h2 : ¬ wordCount r > 20 := by omega
    refine ⟨by simp [completenessScore, h1, h2], ?_⟩
    show "Could provide more detail" ∈ (aiEvalBody q r p).areas_for_improvement
    simp only [aiEvalBody, h1, h2, if_false]
    split_ifs <;> simp_all

/-- Witness for the amended C4 thresholds at concrete word counts 30 and 2. -/
theorem completeness_thresholds_witness :
    completenessScore ("w w w w w w w w w w w w w w w w w w w w w w w w w w w w w w") = 2 ∧
    completenessScore "I see" = 1 :=
  ⟨(completeness_thresholds ⟨"i", "q", "t"⟩ ("w w w w w w w w w w w w w w w w w w w w w w w w w w w w w w")
      InterviewPhase.warmup).2.1 (by decide),
   ((completeness_thresholds ⟨"i", "q", "t"⟩ "I see" InterviewPhase.warmup).2.2
      (by decide)).1⟩

/-- The VLOOKUP question of the core-skills scenario. -/
def vlookupQuestion : Question :=
  ⟨"c1", "How would you use VLOOKUP to find data in a table?", "lookup"⟩

/-- The candidate answer of the core-skills scenario. -/
def vlookupAnswer : String :=
  "You use VLOOKUP to search a table and return a matching value, for example finding a price by product ID"

theorem roundHalfEven_intCast (n : ℤ) : roundHalfEven (n : ℚ) = n := by
  unfold roundHalfEven
  rw [Int.floor_intCast]
  norm_num

theorem roundTenths_intCast (n : ℤ) : roundTenths (n : ℚ) = n := by
  unfold roundTenths
  have h10 : (10 : ℚ) * (n : ℚ) = ((10 * n : ℤ) : ℚ) := by push_cast; ring
  rw [h10, roundHalfEven_intCast]
  push_cast
  ring

/-- The four sub-scores on the scenario input sum to 12: technical accuracy
9 (formula-name hit, table hit, core-skills bonus), completeness 1 (the
answer has exactly 20 words, not more), clarity 2 (example phrase), Excel
knowledge 0 (no domain term occurs). -/
theorem vlookup_scenario_subscores :
    technicalAccuracy (lowerString vlookupAnswer) .core_skills = 9 ∧
    completenessScore vlookupAnswer = 1 ∧
    clarityScore vlookupAnswer (lowerString vlookupAnswer) = 2 ∧
    excelKnowledge (lowerString vlookupAnswer) = 0 := by decide

theorem vlookup_scenario_score_value :
    (aiEvaluate vlookupQuestion vlookupAnswer .core_skills).score = 3 := by
  have hval : (aiEvaluate vlookupQuestion vlookupAnswer .core_skills).score =
      roundTenths (min 10 (max 1
        (((technicalAccuracy (lowerString vlookupAnswer) .core_skills +
          completenessScore vlookupAnswer +
          clarityScore vlookupAnswer (lowerString vlookupAnswer) +
          excelKnowledge (lowerString vlookupAnswer) : ℕ) : ℚ) / 4))) := rfl
  have hsum : technicalAccuracy (lowerString vlookupAnswer) .core_skills +
      completenessScore vlookupAnswer +
      clarityScore vlookupAnswer (lowerString vlookupAnswer) +
      excelKnowledge (lowerString vlookupAnswer) = 12 := by decide
  rw [hval, hsum]
  have h4 : (((12 : ℕ) : ℚ)) / 4 = 3 := by norm_num
  rw [h4]
  have hmax : max (1 : ℚ) 3 = 3 := by norm_num
  have hmin : min (10 : ℚ) 3 = 3 := by norm_num
  rw [hmax, hmin]
  rw [show (3 : ℚ) = ((3 : ℤ) : ℚ) by norm_num, roundTenths_intCast]

/-- C5 counterexample: on the scenario input the scorer returns 3.0, which
is below the claimed bound of 7 (the answer has exactly 20 words, so
completeness contributes only 1, and none of the Excel-knowledge terms
occur: the sub-scores are 9 + 1 + 2 + 0 = 12, and 12 / 4 = 3). -/
theorem vlookup_scenario_score_below_seven :
    (aiEvaluate vlookupQuestion vlookupAnswer .core_skills).score = 3 ∧
    ¬ 7 ≤ (aiEvaluate vlookupQuestion vlookupAnswer .core_skills).score := by
  have h := vlookup_scenario_score_value
  refine ⟨h, ?_⟩
  rw [h]
  norm_num

/-- C5 (amended): on the scenario input the scorer returns the score 3.0
and a non-empty strengths list. -/
theorem vlookup_scenario_actual_result :
    (aiEvaluate vlookupQuestion vlookupAnswer .core_skills).score = 3 ∧
    (aiEvaluate vlookupQuestion vlookupAnswer .core_skills).strengths ≠ [] := by
  refine ⟨vlookup_scenario_score_value, ?_⟩
  have h : (aiEvaluate vlookupQuestion vlookupAnswer .core_skills).strengths =
      ["Demonstrates knowledge of Excel functions",
       "Shows understanding of data analysis tools",
       "Provides examples"] := by decide
  rw [h]
  decide

/-- C3 counterexample: the built-in fallback bank contains six questions,
not four, and its warmup phase alone holds two of them. -/
theorem fallback_bank_has_six_questions :
    bankSize get_fallback_questions = 6 ∧
    get_fallback_questions.warmup.length = 2 := by decide

/-- C3 (amended): when the question-source document is absent or malformed,
the loaded bank is exactly the built-in fallback set — six questions
covering the four non-greeting phases: two warmup, two core-skills, one
scenario-based and one troubleshooting. -/
theorem load_failure_yields_fallback_bank (e : String) :
    load_question_bank (.error e) = get_fallback_questions ∧
    bankSize get_fallback_questions = 6 ∧
    get_fallback_questions.warmup.length = 2 ∧
    get_fallback_questions.core_skills.length = 2 ∧
    get_fallback_questions.scenario_based.length = 1 ∧
    get_fallback_questions.troubleshooting.length = 1 :=
  ⟨rfl, by decide, by decide, by decide, by decide, by decide⟩

/-- C9: the final-report generator always returns exactly the deterministic
fallback report on the same numeric inputs, for every possible external
model behaviour and session: the external branch reads the attribute
`evaluation_model_url`, which `__init__` never defines, so the
`AttributeError` is always caught and the fallback used. -/
theorem final_report_always_fallback (callModel : String → String → String)
    (state : InterviewState) (avg_score : ℚ) (phase_scores : List (String × List ℚ)) :
    generate_ai_final_report callModel theAgentAttrs state avg_score phase_scores =
      generate_fallback_report avg_score phase_scores state.evaluation_scores.length := rfl

/-- The sum question used to exercise the rule-based fallback path. -/
def sumQuestion : Question :=
  ⟨"w2", "Can you walk me through how you would sum a column of numbers?", "basic"⟩

/-- A detailed candidate answer to the sum question. -/
def sumAnswer : String :=
  "I would use the sum formula in excel to add the numbers"

/-- C7 counterexample: when the advanced evaluator raises an internal error
but the rule-based body succeeds, the scorer returns the rule-based result,
not the fixed neutral one — its strengths list already differs from the
neutral result's. -/
theorem caught_error_not_always_neutral :
    (ai_evaluate_response (fun _ _ _ => .error "internal failure")
        (fun q r p => .ok (ruleEvalBody q r p)) sumQuestion sumAnswer .warmup).strengths ≠
      neutralResult.strengths ∧
    ai_evaluate_response (fun _ _ _ => .error "internal failure")
        (fun q r p => .ok (ruleEvalBody q r p)) sumQuestion sumAnswer .warmup ≠
      neutralResult := by
  have h : (ai_evaluate_response (fun _ _ _ => .error "internal failure")
      (fun q r p => .ok (ruleEvalBody q r p)) sumQuestion sumAnswer .warmup).strengths ≠
      neutralResult.strengths := by decide
  exact ⟨h, fun he => h (by rw [he])⟩

/-- C7 (amended): no exception ever escapes the scorer (its embedded form
is total by construction), and the error handling is a two-level chain: an
internal error of the advanced evaluator is caught and evaluation falls
back to the rule-based evaluator; an internal error there is caught and
replaced by the fixed neutral result, whose score is 5.0. -/
theorem evaluator_error_fallback_chain
    (aiBody ruleBody : Question → String → InterviewPhase → Except String EvaluationResult)
    (q : Question) (r : String) (p : InterviewPhase) (e e2 : String) :
    (aiBody q r p = .error e →
      ai_evaluate_response aiBody ruleBody q r p =
        rule_based_evaluate_response ruleBody q r p) ∧
    (aiBody q r p = .error e → ruleBody q r p = .error e2 →
      ai_evaluate_response aiBody ruleBody q r p = neutralResult) ∧
    neutralResult.score = 5 := by
  refine ⟨?_, ?_, rfl⟩
  · intro h
    simp [ai_evaluate_response, h]
  · intro h h2
    simp [ai_evaluate_response, rule_based_evaluate_response, h, h2]

/-- Witness for the amended C7 chain: concrete failing bodies produce the
neutral result with score 5. -/
theorem evaluator_error_fallback_chain_witness :
    ai_evaluate_response (fun _ _ _ => .error "x") (fun _ _ _ => .error "y")
      ⟨"i", "q", "t"⟩ "r" .warmup = neutralResult ∧
    neutralResult.score = 5 :=
  ⟨(evaluator_error_fallback_chain (fun _ _ _ => .error "x") (fun _ _ _ => .error "y")
      ⟨"i", "q", "t"⟩ "r" .warmup "x" "y").2.1 rfl rfl,
   (evaluator_error_fallback_chain (fun _ _ _ => .error "x") (fun _ _ _ => .error "y")
      ⟨"i", "q", "t"⟩ "r" .warmup "x" "y").2.2⟩

theorem appendCandidate_phase (s : InterviewState) (r : String) :
    (appendCandidate s r).current_phase = s.current_phase := rfl

theorem appendCandidate_history (s : InterviewState) (r : String) :
    (appendCandidate s r).conversation_history =
      s.conversation_history ++ [⟨"candidate", r, s.current_phase, none⟩] := rfl

theorem evalStage_phase (s : InterviewState) (r : String) :
    (evalStage s r).current_phase = s.current_phase := by
  unfold evalStage
  cases s.current_question <;> rfl

theorem evalStage_history (s : InterviewState) (r : String) :
    (evalStage s r).conversation_history = s.conversation_history := by
  unfold evalStage
  cases s.current_question <;> rfl

theorem askStage_phase_ne_greeting (bank : QuestionBank) (s : InterviewState) :
    (askStage bank s).current_phase ≠ .greeting := by
  unfold askStage
  by_cases hw : s.current_phase = .wrapup
  · simp [hw]
  · rw [if_neg hw]
    by_cases hg : s.current_phase = .greeting
    · rw [if_pos hg]
      cases h : get_next_question bank { s with current_phase := .warmup } <;> simp [h]
    · rw [if_neg hg]
      cases h : get_next_question bank s <;> simp [h, hg]

theorem midState_phase_ne_greeting (bank : QuestionBank) (s : InterviewState) (r : String) :
    (midState bank s r).current_phase ≠ .greeting :=
  askStage_phase_ne_greeting bank (evalStage (appendCandidate s r) r)

/-- C2: whenever, at the phase-transition check of a candidate turn, the
count of non-greeting interviewer messages has reached 18 and no question
is pending, the turn ends with the session in wrapup, regardless of the
per-phase question counts. -/
theorem eighteen_question_override (bank : QuestionBank)
    (callModel : String → String → String) (s : InterviewState) (r : String)
    (h18 : nonGreetingQuestionCount (midState bank s r).conversation_history ≥ 18)
    (hq : (midState bank s r).current_question = none) :
    (process_candidate_response bank callModel s r).current_phase = .wrapup := by
  unfold process_candidate_response phaseStage
  rw [if_neg (midState_phase_ne_greeting bank s r)]
  unfold checkPhase
  rw [if_pos h18, if_pos hq]
  simp

/-- A session that has already seen 18 warmup questions, used to witness
the 18-question override concretely. -/
def eighteenAsked : InterviewState :=
  { candidate_name := "x",
    current_phase := .warmup,
    conversation_history := List.replicate 18 ⟨"interviewer", "q", .warmup, some "w1"⟩,
    current_question := none,
    evaluation_scores := [] }

/-- A trivial stand-in for the external model call. -/
def noModel : String → String → String := fun _ _ => ""

/-- Witness for the 18-question override on a concrete session. -/
theorem eighteen_question_override_witness :
    nonGreetingQuestionCount
        (midState get_fallback_questions eighteenAsked "hi").conversation_history ≥ 18 ∧
    (midState get_fallback_questions eighteenAsked "hi").current_question = none ∧
    (process_candidate_response get_fallback_questions noModel
        eighteenAsked "hi").current_phase = .wrapup := by
  have h18 : nonGreetingQuestionCount
      (midState get_fallback_questions eighteenAsked "hi").conversation_history ≥ 18 := by decide
  have hq : (midState get_fallback_questions eighteenAsked "hi").current_question = none := by
    decide
  exact ⟨h18, hq, eighteen_question_override get_fallback_questions noModel
    eighteenAsked "hi" h18 hq⟩

/-- Number of interviewer messages tagged with the wrapup phase — i.e. the
number of final-report messages in a transcript. -/
def wrapupReportCount (history : List InterviewMessage) : Nat :=
  (history.filter (fun m => m.role = "interviewer" ∧ m.phase = .wrapup)).length

theorem wrapupReportCount_append (l1 l2 : List InterviewMessage) :
    wrapupReportCount (l1 ++ l2) = wrapupReportCount l1 + wrapupReportCount l2 := by
  simp [wrapupReportCount, List.filter_append]

theorem checkPhase_history (bank : QuestionBank) (s : InterviewState) :
    (checkPhase bank s).conversation_history = s.conversation_history := by
  unfold checkPhase
  split_ifs <;> rfl

theorem askStage_history_cases (bank : QuestionBank) (s : InterviewState) :
    (askStage bank s).conversation_history = s.conversation_history ∨
    ∃ p q, (askStage bank s).conversation_history =
      s.conversation_history ++ [questionMessage p q] ∧ p ≠ InterviewPhase.wrapup := by
  unfold askStage
  by_cases hw : s.current_phase = .wrapup
  · rw [if_pos hw]
    exact Or.inl rfl
  · rw [if_neg hw]
    by_cases hg : s.current_phase = .greeting
    · rw [if_pos hg]
      cases h : get_next_question bank { s with current_phase := .warmup } with
      | none => exact Or.inl (by simp [h])
      | some q => exact Or.inr ⟨.warmup, q, by simp [h], by simp⟩
    · rw [if_neg hg]
      cases h : get_next_question bank s with
      | none => exact Or.inl (by simp [h])
      | some q => exact Or.inr ⟨s.current_phase, q, by simp [h], hw⟩

theorem midState_wrapupReportCount (bank : QuestionBank) (s : InterviewState) (r : String) :
    wrapupReportCount (midState bank s r).conversation_history =
      wrapupReportCount s.conversation_history := by
  unfold midState
  have hcand : wrapupReportCount [⟨"candidate", r, s.current_phase, none⟩] = 0 := by
    simp [wrapupReportCount]
  rcases askStage_history_cases bank (evalStage (appendCandidate s r) r) with h | ⟨p, q, h, hp⟩
  · rw [h, evalStage_history, appendCandidate_history, wrapupReportCount_append, hcand]
    omega
  · have hq : wrapupReportCount [questionMessage p q] = 0 := by
      simp [wrapupReportCount, questionMessage, hp]
    rw [h, evalStage_history, appendCandidate_history, wrapupReportCount_append,
      wrapupReportCount_append, hcand, hq]
    omega

/-- C6 (amended): one final-report message is appended on every candidate
turn that ends with the session in wrapup — the first such turn (the entry
into wrapup) appends it once, but any further turn processed in wrapup
appends another; turns not ending in wrapup append none. -/
theorem report_appended_iff_turn_ends_in_wrapup (bank : QuestionBank)
    (callModel : String → String → String) (s : InterviewState) (r : String) :
    wrapupReportCount (process_candidate_response bank callModel s r).conversation_history =
      wrapupReportCount s.conversation_history +
        (if (process_candidate_response bank callModel s r).current_phase = .wrapup
          then 1 else 0) := by
  unfold process_candidate_response phaseStage
  rw [if_neg (midState_phase_ne_greeting bank s r)]
  have hh : (checkPhase bank (midState bank s r)).conversation_history =
      (midState bank s r).conversation_history := checkPhase_history bank _
  have hmid : wrapupReportCount (midState bank s r).conversation_history =
      wrapupReportCount s.conversation_history := midState_wrapupReportCount bank s r
  by_cases hw : (checkPhase bank (midState bank s r)).current_phase = .wrapup
  · rw [if_pos hw]
    have hrep : wrapupReportCount [reportMessage callModel (checkPhase bank (midState bank s r))] = 1 := by
      simp [wrapupReportCount, reportMessage]
    simp only [wrapupReportCount_append, hh, hmid, hrep, hw, if_pos]
  · rw [if_neg hw]
    simp [hw, hh, hmid]

/-- A full six-turn session against the fallback bank: it enters wrapup on
the sixth turn, with exactly one final-report message in the transcript. -/
def wrapupSession : InterviewState :=
  process_candidate_response get_fallback_questions noModel
    (process_candidate_response get_fallback_questions noModel
      (process_candidate_response get_fallback_questions noModel
        (process_candidate_response get_fallback_questions noModel
          (process_candidate_response get_fallback_questions noModel
            (process_candidate_response get_fallback_questions noModel
              (initialState "Alice") "I am ready")
            "I have used excel for five years")
          "You sum a column with the sum formula")
        "vlookup searches a table for a value")
      "pivot tables summarize data")
    "I would filter and sort and use a pivot table to analyze"

/-- C6 counterexample: the session above has entered wrapup with exactly
one report message, yet processing one further candidate turn appends a
second report message. -/
theorem second_wrapup_call_appends_second_report :
    wrapupSession.current_phase = .wrapup ∧
    wrapupReportCount wrapupSession.conversation_history = 1 ∧
    wrapupReportCount
      (process_candidate_response get_fallback_questions noModel
        wrapupSession "one more answer").conversation_history = 2 := by decide

theorem askStage_phase_cases (bank : QuestionBank) (t : InterviewState) :
    (askStage bank t).current_phase = t.current_phase ∨
    (askStage bank t).current_phase = .warmup := by
  unfold askStage
  by_cases hw : t.current_phase = .wrapup
  · rw [if_pos hw]
    exact Or.inl rfl
  · rw [if_neg hw]
    by_cases hg : t.current_phase = .greeting
    · rw [if_pos hg]
      right
      cases h : get_next_question bank { t with current_phase := .warmup } <;> simp [h]
    · rw [if_neg hg]
      left
      cases h : get_next_question bank t <;> simp [h]

theorem midState_phase_cases (bank : QuestionBank) (s : InterviewState) (r : String) :
    (midState bank s r).current_phase = s.current_phase ∨
    (midState bank s r).current_phase = .warmup := by
  have h := askStage_phase_cases bank (evalStage (appendCandidate s r) r)
  rw [evalStage_phase, appendCandidate_phase] at h
  exact h

theorem transition_ne_feedback (bank : QuestionBank) (t : InterviewState)
    (h : t.current_phase ≠ .feedback) :
    transition_to_next_phase bank t ≠ .feedback := by
  unfold transition_to_next_phase
  cases hp : t.current_phase <;> dsimp only <;> split_ifs <;> simp_all

theorem transition_of_wrapup (bank : QuestionBank) (t : InterviewState)
    (h : t.current_phase = .wrapup) :
    transition_to_next_phase bank t = .wrapup := by
  unfold transition_to_next_phase
  cases hp : t.current_phase <;> dsimp only <;> split_ifs <;> simp_all

theorem checkPhase_ne_feedback (bank : QuestionBank) (t : InterviewState)
    (h : t.current_phase ≠ .feedback) :
    (checkPhase bank t).current_phase ≠ .feedback := by
  unfold checkPhase
  split_ifs with h1 h2
  · simp
  · simpa using h
  · simpa using transition_ne_feedback bank t h

theorem checkPhase_of_wrapup (bank : QuestionBank) (t : InterviewState)
    (h : t.current_phase = .wrapup) :
    (checkPhase bank t).current_phase = .wrapup := by
  unfold checkPhase
  split_ifs with h1 h2
  · simp
  · simpa using h
  · simpa using transition_of_wrapup bank t h

theorem process_phase_ne_feedback (bank : QuestionBank)
    (callModel : String → String → String) (s : InterviewState) (r : String)
    (h : s.current_phase ≠ .feedback) :
    (process_candidate_response bank callModel s r).current_phase ≠ .feedback := by
  unfold process_candidate_response phaseStage
  rw [if_neg (midState_phase_ne_greeting bank s r)]
  have hmid : (midState bank s r).current_phase ≠ .feedback := by
    rcases midState_phase_cases bank s r with hc | hc
    · rw [hc]; exact h
    · rw [hc]; simp
  have hchk := checkPhase_ne_feedback bank _ hmid
  by_cases hw : (checkPhase bank (midState bank s r)).current_phase = .wrapup
  · rw [if_pos hw]
    simpa using hchk
  · rw [if_neg hw]
    exact hchk

theorem wrapup_terminal (bank : QuestionBank) (callModel : String → String → String)
    (s : InterviewState) (r : String) (h : s.current_phase = .wrapup) :
    (process_candidate_response bank callModel s r).current_phase = .wrapup := by
  have hx : (evalStage (appendCandidate s r) r).current_phase = .wrapup := by
    rw [evalStage_phase, appendCandidate_phase]
    exact h
  have hmid : (midState bank s r).current_phase = .wrapup := by
    unfold midState askStage
    rw [if_pos hx]
    exact hx
  unfold process_candidate_response phaseStage
  rw [if_neg (midState_phase_ne_greeting bank s r)]
  have hchk := checkPhase_of_wrapup bank _ hmid
  rw [if_pos hchk]
  simpa using hchk

theorem mem_sixPhases (p : InterviewPhase) (h : p ≠ .feedback) :
    p ∈ [InterviewPhase.greeting, InterviewPhase.warmup, InterviewPhase.core_skills,
      InterviewPhase.scenario_based, InterviewPhase.troubleshooting, InterviewPhase.wrapup] := by
  cases p <;> simp_all

/-- C10: every session state reachable from the greeting phase through
`process_candidate_response` has its current phase among the six spec
phases — the seventh enumeration member `feedback` is never assigned — and
wrapup is terminal: processing any further turn leaves the phase at
wrapup. -/
theorem reachable_phases_are_spec_phases (bank : QuestionBank)
    (callModel : String → String → String) (s : InterviewState)
    (h : ReachableFromGreeting bank callModel s) :
    s.current_phase ∈ [InterviewPhase.greeting, InterviewPhase.warmup,
      InterviewPhase.core_skills, InterviewPhase.scenario_based,
      InterviewPhase.troubleshooting, InterviewPhase.wrapup] ∧
    (s.current_phase = .wrapup → ∀ r : String,
      (process_candidate_response bank callModel s r).current_phase = .wrapup) := by
  constructor
  · have hne : s.current_phase ≠ .feedback := by
      induction h with
      | init name => simp [greetingStart]
      | step s' r' h' ih => exact process_phase_ne_feedback bank callModel s' r' ih
    exact mem_sixPhases _ hne
  · intro hw r
    exact wrapup_terminal bank callModel s r hw

/-- Witness for C10 at the concrete greeting-phase start state. -/
theorem reachable_phases_are_spec_phases_witness :
    (greetingStart "Alice").current_phase ∈ [InterviewPhase.greeting, InterviewPhase.warmup,
      InterviewPhase.core_skills, InterviewPhase.scenario_based,
      InterviewPhase.troubleshooting, InterviewPhase.wrapup] ∧
    ((greetingStart "Alice").current_phase = .wrapup → ∀ r : String,
      (process_candidate_response get_fallback_questions noModel
        (greetingStart "Alice") r).current_phase = .wrapup) :=
  reachable_phases_are_spec_phases get_fallback_questions noModel (greetingStart "Alice")
    (ReachableFromGreeting.init "Alice")

/-- The phase tags of successive transcript messages are monotonically
non-decreasing in the fixed interview phase order. -/
def tagsSorted (history : List InterviewMessage) : Prop :=
  List.Chain' (fun a b => phaseIdx a.phase ≤ phaseIdx b.phase) history

/-- No message of the transcript is tagged with the wrapup phase. -/
def noWrapupTags (history : List InterviewMessage) : Prop :=
  ∀ m ∈ history, m.phase ≠ InterviewPhase.wrapup

/-- The transcript carries at most one wrapup-tagged message — the
synthetic final report, an interviewer message — and when present it is
the last entry. -/
def reportIsLast (history : List InterviewMessage) : Prop :=
  noWrapupTags history ∨
  ∃ h₀ m, history = h₀ ++ [m] ∧ noWrapupTags h₀ ∧
    m.phase = InterviewPhase.wrapup ∧ m.role = "interviewer"

/-- The session invariant maintained by the driver: sorted phase tags, all
tags bounded by the current phase, a current phase that is neither greeting
nor the unused feedback member, no wrapup-tagged message before wrapup is
entered, and the single trailing report message once it is. -/
def SessionInv (s : InterviewState) : Prop :=
  tagsSorted s.conversation_history ∧
  (∀ m ∈ s.conversation_history, phaseIdx m.phase ≤ phaseIdx s.current_phase) ∧
  s.current_phase ≠ .greeting ∧
  s.current_phase ≠ .feedback ∧
  (s.current_phase ≠ .wrapup → noWrapupTags s.conversation_history) ∧
  (s.current_phase = .wrapup →
    ∃ h₀ m, s.conversation_history = h₀ ++ [m] ∧ noWrapupTags h₀ ∧
      m.phase = InterviewPhase.wrapup ∧ m.role = "interviewer")

theorem phaseIdx_le_five (p : InterviewPhase) (h : p ≠ .feedback) : phaseIdx p ≤ 5 := by
  cases p <;> simp_all [phaseIdx]

theorem tagsSorted_append_one (h : List InterviewMessage) (m : InterviewMessage)
    (hs : tagsSorted h) (hle : ∀ x ∈ h, phaseIdx x.phase ≤ phaseIdx m.phase) :
    tagsSorted (h ++ [m]) := by
  rw [tagsSorted, List.chain'_append]
  refine ⟨hs, List.chain'_singleton _, ?_⟩
  intro x hx y hy
  have hxm : x ∈ h := by
    obtain ⟨hne, hx'⟩ := List.mem_getLast?_eq_getLast hx
    rw [hx']
    exact List.getLast_mem hne
  have hym : m = y := by simpa using hy
  subst hym
  exact hle x hxm

theorem noWrapupTags_append_one (h : List InterviewMessage) (m : InterviewMessage)
    (hn : noWrapupTags h) (hm : m.phase ≠ .wrapup) : noWrapupTags (h ++ [m]) := by
  intro x hx
  rcases List.mem_append.mp hx with hx' | hx'
  · exact hn x hx'
  · rw [List.mem_singleton.mp hx']
    exact hm

theorem allTagsLe_append_one (h : List InterviewMessage) (m : InterviewMessage) (n : Nat)
    (hle : ∀ x ∈ h, phaseIdx x.phase ≤ n) (hm : phaseIdx m.phase ≤ n) :
    ∀ x ∈ h ++ [m], phaseIdx x.phase ≤ n := by
  intro x hx
  rcases List.mem_append.mp hx with hx' | hx'
  · exact hle x hx'
  · rw [List.mem_singleton.mp hx']
    exact hm

theorem transition_ne_greeting (bank : QuestionBank) (t : InterviewState)
    (h : t.current_phase ≠ .greeting) :
    transition_to_next_phase bank t ≠ .greeting := by
  unfold transition_to_next_phase
  cases hp : t.current_phase <;> dsimp only <;> split_ifs <;> simp_all

theorem transition_ge (bank : QuestionBank) (t : InterviewState)
    (h : t.current_phase ≠ .feedback) :
    phaseIdx t.current_phase ≤ phaseIdx (transition_to_next_phase bank t) := by
  unfold transition_to_next_phase
  cases hp : t.current_phase <;> dsimp only <;> split_ifs <;> simp_all [phaseIdx]

theorem checkPhase_ge (bank : QuestionBank) (t : InterviewState)
    (hf : t.current_phase ≠ .feedback) :
    phaseIdx t.current_phase ≤ phaseIdx (checkPhase bank t).current_phase := by
  unfold checkPhase
  split_ifs with h1 h2
  · simpa [phaseIdx] using phaseIdx_le_five _ hf
  · simp
  · simpa using transition_ge bank t hf

theorem checkPhase_ne_greeting (bank : QuestionBank) (t : InterviewState)
    (hg : t.current_phase ≠ .greeting) :
    (checkPhase bank t).current_phase ≠ .greeting := by
  unfold checkPhase
  split_ifs with h1 h2
  · simp
  · simpa using hg
  · simpa using transition_ne_greeting bank t hg

theorem askStage_spec_of_ne (bank : QuestionBank) (t : InterviewState)
    (hg : t.current_phase ≠ .greeting) (hw : t.current_phase ≠ .wrapup) :
    (askStage bank t).current_phase = t.current_phase ∧
    ((askStage bank t).conversation_history = t.conversation_history ∨
      ∃ q, (askStage bank t).conversation_history =
        t.conversation_history ++ [questionMessage t.current_phase q]) := by
  unfold askStage
  rw [if_neg hw, if_neg hg]
  dsimp only
  cases h : get_next_question bank t with
  | none => exact ⟨rfl, Or.inl rfl⟩
  | some q => exact ⟨rfl, Or.inr ⟨q, rfl⟩⟩

theorem SessionInv_of_fields (x : InterviewState) (h : List InterviewMessage)
    (p : InterviewPhase) (hh : x.conversation_history = h) (hp : x.current_phase = p)
    (h1 : tagsSorted h) (h2 : ∀ m ∈ h, phaseIdx m.phase ≤ phaseIdx p)
    (h3 : p ≠ .greeting) (h4 : p ≠ .feedback)
    (h5 : p ≠ .wrapup → noWrapupTags h)
    (h6 : p = .wrapup → ∃ h₀ m, h = h₀ ++ [m] ∧ noWrapupTags h₀ ∧
      m.phase = InterviewPhase.wrapup ∧ m.role = "interviewer") :
    SessionInv x := by
  unfold SessionInv
  rw [hh, hp]
  exact ⟨h1, h2, h3, h4, h5, h6⟩

theorem phaseStage_inv (bank : QuestionBank) (callModel : String → String → String)
    (M : InterviewState) (p : InterviewPhase)
    (hmp : M.current_phase = p) (hpg : p ≠ .greeting) (hpf : p ≠ .feedback)
    (_hpw : p ≠ .wrapup)
    (hsort : tagsSorted M.conversation_history)
    (hle : ∀ m ∈ M.conversation_history, phaseIdx m.phase ≤ phaseIdx p)
    (hnw : noWrapupTags M.conversation_history) :
    SessionInv (phaseStage bank callModel M) := by
  have hMg : M.current_phase ≠ .greeting := by rw [hmp]; exact hpg
  have hMf : M.current_phase ≠ .feedback := by rw [hmp]; exact hpf
  unfold phaseStage
  rw [if_neg hMg]
  have hTh : (checkPhase bank M).conversation_history = M.conversation_history :=
    checkPhase_history bank M
  have hTge : phaseIdx p ≤ phaseIdx (checkPhase bank M).current_phase := by
    have h := checkPhase_ge bank M hMf
    rw [hmp] at h
    exact h
  have hTg : (checkPhase bank M).current_phase ≠ .greeting :=
    checkPhase_ne_greeting bank M hMg
  have hTf : (checkPhase bank M).current_phase ≠ .feedback :=
    checkPhase_ne_feedback bank M hMf
  have hle5 : ∀ m ∈ M.conversation_history, phaseIdx m.phase ≤ 5 := by
    intro m hm
    exact le_trans (hle m hm) (phaseIdx_le_five p hpf)
  by_cases hTw : (checkPhase bank M).current_phase = .wrapup
  · rw [if_pos hTw]
    refine SessionInv_of_fields _
      ((checkPhase bank M).conversation_history ++ [reportMessage callModel (checkPhase bank M)])
      (checkPhase bank M).current_phase rfl rfl ?_ ?_ hTg hTf ?_ ?_
    · rw [hTh]
      refine tagsSorted_append_one _ _ hsort ?_
      intro x hx
      have hrp : phaseIdx (reportMessage callModel (checkPhase bank M)).phase = 5 := rfl
      rw [hrp]
      exact hle5 x hx
    · rw [hTh, hTw]
      refine allTagsLe_append_one _ _ _ ?_ ?_
      · intro x hx
        exact le_trans (hle x hx) (le_trans (phaseIdx_le_five p hpf) (by simp [phaseIdx]))
      · simp [reportMessage, phaseIdx]
    · intro hc
      exact absurd hTw hc
    · intro _
      refine ⟨(checkPhase bank M).conversation_history,
        reportMessage callModel (checkPhase bank M), rfl, ?_, rfl, rfl⟩
      rw [hTh]
      exact hnw
  · rw [if_neg hTw]
    refine SessionInv_of_fields _ M.conversation_history (checkPhase bank M).current_phase
      hTh rfl hsort ?_ hTg hTf (fun _ => hnw) (fun hc => absurd hc hTw)
    intro m hm
    exact le_trans (hle m hm) hTge

theorem midState_inv (bank : QuestionBank) (s : InterviewState) (r : String)
    (hInv : SessionInv s) (hw : s.current_phase ≠ .wrapup) :
    (midState bank s r).current_phase = s.current_phase ∧
    tagsSorted (midState bank s r).conversation_history ∧
    (∀ m ∈ (midState bank s r).conversation_history,
      phaseIdx m.phase ≤ phaseIdx s.current_phase) ∧
    noWrapupTags (midState bank s r).conversation_history := by
  unfold midState
  obtain ⟨hSort, hLe, hG, hF, hNoW, _⟩ := hInv
  have hnw : noWrapupTags s.conversation_history := hNoW hw
  have ht2p : (evalStage (appendCandidate s r) r).current_phase = s.current_phase := by
    rw [evalStage_phase, appendCandidate_phase]
  have ht2h : (evalStage (appendCandidate s r) r).conversation_history =
      s.conversation_history ++ [⟨"candidate", r, s.current_phase, none⟩] := by
    rw [evalStage_history, appendCandidate_history]
  obtain ⟨hmp, hmh⟩ := askStage_spec_of_ne bank (evalStage (appendCandidate s r) r)
    (by rw [ht2p]; exact hG) (by rw [ht2p]; exact hw)
  rw [ht2p] at hmp
  rw [ht2p, ht2h] at hmh
  have hcands : tagsSorted (s.conversation_history ++
      [⟨"candidate", r, s.current_phase, none⟩]) :=
    tagsSorted_append_one _ _ hSort hLe
  have hcandle : ∀ m ∈ s.conversation_history ++
      [⟨"candidate", r, s.current_phase, none⟩],
      phaseIdx m.phase ≤ phaseIdx s.current_phase :=
    allTagsLe_append_one _ _ _ hLe (le_refl _)
  have hcandnw : noWrapupTags (s.conversation_history ++
      [⟨"candidate", r, s.current_phase, none⟩]) :=
    noWrapupTags_append_one _ _ hnw hw
  refine ⟨hmp, ?_, ?_, ?_⟩
  · rcases hmh with hmh | ⟨q, hmh⟩
    · rw [hmh]
      exact hcands
    · rw [hmh]
      exact tagsSorted_append_one _ _ hcands hcandle
  · rcases hmh with hmh | ⟨q, hmh⟩
    · rw [hmh]
      exact hcandle
    · rw [hmh]
      exact allTagsLe_append_one _ _ _ hcandle (le_refl _)
  · rcases hmh with hmh | ⟨q, hmh⟩
    · rw [hmh]
      exact hcandnw
    · rw [hmh]
      exact noWrapupTags_append_one _ _ hcandnw hw

theorem inv_step (bank : QuestionBank) (callModel : String → String → String)
    (s : InterviewState) (r : String) (hInv : SessionInv s)
    (hw : s.current_phase ≠ .wrapup) :
    SessionInv (process_candidate_response bank callModel s r) := by
  have hG : s.current_phase ≠ .greeting := hInv.2.2.1
  have hF : s.current_phase ≠ .feedback := hInv.2.2.2.1
  obtain ⟨hmp, hsort, hle, hnw⟩ := midState_inv bank s r hInv hw
  unfold process_candidate_response
  exact phaseStage_inv bank callModel (midState bank s r) s.current_phase
    hmp hG hF hw hsort hle hnw

theorem inv_init (name : String) : SessionInv (initialState name) := by
  refine ⟨List.chain'_singleton _, ?_, ?_, ?_, ?_, ?_⟩
  · intro m hm
    have : m = ⟨"interviewer", greetingText name, .greeting, none⟩ := by
      simpa [initialState] using hm
    rw [this]
    simp [phaseIdx, initialState]
  · simp [initialState]
  · simp [initialState]
  · intro _ m hm
    have : m = ⟨"interviewer", greetingText name, .greeting, none⟩ := by
      simpa [initialState] using hm
    rw [this]
    simp
  · intro hc
    exact absurd hc (by simp [initialState])

theorem inv_of_reachable (bank : QuestionBank) (callModel : String → String → String)
    (s : InterviewState) (h : DriverReachable bank callModel s) : SessionInv s := by
  induction h with
  | init name hname => exact inv_init (pyStrip name)
  | step s' r' h' hw' hr' ih => exact inv_step bank callModel s' (pyStrip r') ih hw'

theorem process_history_extends (bank : QuestionBank)
    (callModel : String → String → String) (s : InterviewState) (r : String) :
    ∃ t, (process_candidate_response bank callModel s r).conversation_history =
      s.conversation_history ++ t := by
  have hmid : ∃ t1, (midState bank s r).conversation_history =
      s.conversation_history ++ t1 := by
    unfold midState
    rcases askStage_history_cases bank (evalStage (appendCandidate s r) r) with h | ⟨p, q, h, _⟩
    · exact ⟨[⟨"candidate", r, s.current_phase, none⟩],
        by rw [h, evalStage_history, appendCandidate_history]⟩
    · exact ⟨[⟨"candidate", r, s.current_phase, none⟩] ++ [questionMessage p q],
        by rw [h, evalStage_history, appendCandidate_history, List.append_assoc]⟩
  obtain ⟨t1, ht1⟩ := hmid
  unfold process_candidate_response phaseStage
  by_cases hg : (midState bank s r).current_phase = .greeting
  · rw [if_pos hg]
    exact ⟨t1, ht1⟩
  · rw [if_neg hg]
    by_cases hpw : (checkPhase bank (midState bank s r)).current_phase = .wrapup
    · rw [if_pos hpw]
      refine ⟨t1 ++ [reportMessage callModel (checkPhase bank (midState bank s r))], ?_⟩
      show (checkPhase bank (midState bank s r)).conversation_history ++
          [reportMessage callModel (checkPhase bank (midState bank s r))] =
        s.conversation_history ++
          (t1 ++ [reportMessage callModel (checkPhase bank (midState bank s r))])
      rw [checkPhase_history, ht1, List.append_assoc]
    · rw [if_neg hpw]
      exact ⟨t1, by rw [checkPhase_history, ht1]⟩

/-- C8: for every driver-reachable session state, the transcript can only
be extended by a turn (append-only, never edited), its phase tags are
monotonically non-decreasing in the fixed phase order, and the synthetic
wrapup report message, when present, is unique and last. -/
theorem transcript_append_only_and_monotone (bank : QuestionBank)
    (callModel : String → String → String) (s : InterviewState)
    (h : DriverReachable bank callModel s) :
    (∀ r : String, ∃ t,
      (process_candidate_response bank callModel s r).conversation_history =
        s.conversation_history ++ t) ∧
    tagsSorted s.conversation_history ∧
    reportIsLast s.conversation_history := by
  obtain ⟨hSort, _, _, _, hNoW, hWrap⟩ := inv_of_reachable bank callModel s h
  refine ⟨fun r => process_history_extends bank callModel s r, hSort, ?_⟩
  by_cases hw : s.current_phase = .wrapup
  · exact Or.inr (hWrap hw)
  · exact Or.inl (hNoW hw)

/-- Witness for C8 at the concrete freshly started session. -/
theorem transcript_append_only_and_monotone_witness :
    (∀ r : String, ∃ t,
      (process_candidate_response get_fallback_questions noModel
        (initialState (pyStrip "Alice")) r).conversation_history =
        (initialState (pyStrip "Alice")).conversation_history ++ t) ∧
    tagsSorted (initialState (pyStrip "Alice")).conversation_history ∧
    reportIsLast (initialState (pyStrip "Alice")).conversation_history :=
  transcript_append_only_and_monotone get_fallback_questions noModel
    (initialState (pyStrip "Alice"))
    (DriverReachable.init "Alice" (by decide))
